import Mathlib

/-!
Shallow embedding of the HealthGuard pipeline core
(`src/healthguard.py`): the deviation scorer, the anomaly detector
(`HealthPipeline.detect_anomalies`) and the summary aggregator
(`HealthPipeline.get_patient_summary`).

Readings, timestamps and range bounds are modelled as rationals; the
sample standard deviation (pandas `.std()`, a real square root) lives in
`ℝ`.  The SQLite vitals table is modelled as the list of stored records
in insertion order, the alerts table as a list of alerts.
-/

/-- The six tracked vital signs, in the insertion order of the Python
`VITAL_RANGES` dict. -/
inductive Vital
  | heart_rate
  | bp_systolic
  | bp_diastolic
  | temperature
  | spo2
  | resp_rate
deriving DecidableEq, Repr, Fintype

/-- The string name of a vital, as used for dict keys, alert rows and
messages in the source. -/
def vitalName : Vital → String
  | .heart_rate => "heart_rate"
  | .bp_systolic => "bp_systolic"
  | .bp_diastolic => "bp_diastolic"
  | .temperature => "temperature"
  | .spo2 => "spo2"
  | .resp_rate => "resp_rate"

/-- `VITAL_RANGES`: the fixed (low, high) normal bound of each vital
(`src/healthguard.py` lines 9-16). -/
def VITAL_RANGES : Vital → ℚ × ℚ
  | .heart_rate => (60, 100)
  | .bp_systolic => (90, 140)
  | .bp_diastolic => (60, 90)
  | .temperature => (36.1, 37.8)
  | .spo2 => (95, 100)
  | .resp_rate => (12, 20)

/-- The iteration order of `VITAL_RANGES.items()`: Python dicts iterate
in insertion order. -/
def VITALS : List Vital :=
  [.heart_rate, .bp_systolic, .bp_diastolic, .temperature, .spo2, .resp_rate]

/-- One row of the `vitals` table: patient id, timestamp and one reading
per tracked vital. -/
structure VitalRecord where
  patient_id : String
  timestamp : ℚ
  heart_rate : ℚ
  bp_systolic : ℚ
  bp_diastolic : ℚ
  temperature : ℚ
  spo2 : ℚ
  resp_rate : ℚ
deriving DecidableEq, Repr

/-- `row[vital]`: the reading of a record for a given vital. -/
def reading (r : VitalRecord) : Vital → ℚ
  | .heart_rate => r.heart_rate
  | .bp_systolic => r.bp_systolic
  | .bp_diastolic => r.bp_diastolic
  | .temperature => r.temperature
  | .spo2 => r.spo2
  | .resp_rate => r.resp_rate

/-- The `Alert` dataclass of the source.  The vital is stored by its
string name, as in the Python code. -/
structure Alert where
  patient_id : String
  timestamp : ℚ
  vital : String
  value : ℚ
  severity : String
  message : String
deriving DecidableEq, Repr

/-- The deviation computation of `detect_anomalies` (line 81):
`max((low - val)/span, (val - high)/span, 0)` with `span = high - low`. -/
def score (value low high : ℚ) : ℚ :=
  max ((low - value) / (high - low)) (max ((value - high) / (high - low)) 0)

/-- Deviation of a record's reading for a vital against its fixed range. -/
def deviationOf (v : Vital) (r : VitalRecord) : ℚ :=
  score (reading r v) (VITAL_RANGES v).1 (VITAL_RANGES v).2

/-- Round-half-to-even to the nearest integer, the convention of
Python's `round`. -/
def rhe (q : ℚ) : ℤ :=
  if q - ⌊q⌋ < 1 / 2 then ⌊q⌋
  else if 1 / 2 < q - ⌊q⌋ then ⌊q⌋ + 1
  else if ⌊q⌋ % 2 = 0 then ⌊q⌋ else ⌊q⌋ + 1

/-- Python `round(x, 2)`. -/
def round2 (q : ℚ) : ℚ := (rhe (q * 100) : ℚ) / 100

/-- Python `f"{x:.1f}"`: format with exactly one decimal digit. -/
def fmt1 (q : ℚ) : String :=
  let n : ℤ := rhe (q * 10)
  let sign := if n < 0 then "-" else ""
  let m := n.natAbs
  sign ++ toString (m / 10) ++ "." ++ toString (m % 10)

/-- Python `f"{b}"` for a range bound `b` of the fixed table: integers
print without a decimal point, the temperature bounds with one decimal
digit. -/
def boundStr (q : ℚ) : String :=
  if q.den = 1 then toString q.num
  else toString (⌊q⌋) ++ "." ++ toString ((⌊q * 10⌋ % 10 : ℤ))

/-- The severity classification of line 83:
`"critical" if dev > 0.5 else "warning"`. -/
def severityOf (dev : ℚ) : String :=
  if 1 / 2 < dev then "critical" else "warning"

/-- The alert constructed by `detect_anomalies` (lines 84-88) for a
record whose reading for `v` breaches the range. -/
def mkAlert (v : Vital) (r : VitalRecord) : Alert :=
  let low := (VITAL_RANGES v).1
  let high := (VITAL_RANGES v).2
  let val := reading r v
  { patient_id := r.patient_id
    timestamp := r.timestamp
    vital := vitalName v
    value := round2 val
    severity := severityOf (deviationOf v r)
    message := vitalName v ++ "=" ++ fmt1 val ++ " outside ["
      ++ boundStr low ++ "," ++ boundStr high ++ "]" }

/-- The body of the record loop of `detect_anomalies` (lines 79-88): an
alert is emitted exactly when the deviation is positive. -/
def alertOfRecord (v : Vital) (r : VitalRecord) : Option Alert :=
  if 0 < deviationOf v r then some (mkAlert v r) else none

/-- The persistent state of a `HealthPipeline`: the `vitals` and
`alerts` tables, each as its rows in insertion order. -/
structure PipelineState where
  vitals : List VitalRecord
  alerts : List Alert
deriving DecidableEq, Repr

/-- The record query of `detect_anomalies` (lines 68-73): the `WHERE`
clause is added only when `patient_id` is truthy, i.e. neither `None`
nor the empty string. -/
def filterRecords (recs : List VitalRecord) (patient_id : Option String) :
    List VitalRecord :=
  match patient_id with
  | none => recs
  | some p => if p = "" then recs else recs.filter (fun r => r.patient_id == p)

/-- `HealthPipeline.detect_anomalies` (lines 67-93): returns the alert
batch and the pipeline state after the call.  An empty query result
returns immediately; a non-empty batch is appended to the `alerts`
table in one write. -/
def detect_anomalies (st : PipelineState) (patient_id : Option String) :
    List Alert × PipelineState :=
  let df := filterRecords st.vitals patient_id
  if df.isEmpty then ([], st)
  else
    let alerts := VITALS.flatMap (fun v => df.filterMap (alertOfRecord v))
    if alerts.isEmpty then (alerts, st)
    else (alerts, { st with alerts := st.alerts ++ alerts })

/-- Minimum of a list of rationals (pandas `.min()`); 0 on the empty
list, which never occurs in use. -/
def listMin : List ℚ → ℚ
  | [] => 0
  | x :: xs => xs.foldl min x

/-- Maximum of a list of rationals (pandas `.max()`). -/
def listMax : List ℚ → ℚ
  | [] => 0
  | x :: xs => xs.foldl max x

/-- Mean of a list of rationals (pandas `.mean()`). -/
def listMean (xs : List ℚ) : ℚ := xs.sum / xs.length

/-- Sample variance with one delta degree of freedom, the convention of
pandas `.std()` squared. -/
def sampleVar (xs : List ℚ) : ℚ :=
  (xs.map (fun x => (x - listMean xs) ^ 2)).sum / ((xs.length : ℚ) - 1)

/-- Round-half-to-even on the reals, mirroring `rhe`. -/
noncomputable def rheR (x : ℝ) : ℤ :=
  if x - ⌊x⌋ < 1 / 2 then ⌊x⌋
  else if 1 / 2 < x - ⌊x⌋ then ⌊x⌋ + 1
  else if ⌊x⌋ % 2 = 0 then ⌊x⌋ else ⌊x⌋ + 1

/-- Python `round(x, 2)` on a real value. -/
noncomputable def round2R (x : ℝ) : ℝ := (rheR (x * 100) : ℝ) / 100

/-- The per-vital statistics block of a patient summary. -/
structure VitalStats where
  mean : ℚ
  min : ℚ
  max : ℚ
  std : ℝ

/-- The summary dict returned by `get_patient_summary`: `time_range` and
`vitals_stats` are present exactly when the patient has records. -/
structure PatientSummary where
  patient_id : String
  records : ℕ
  time_range : Option (ℚ × ℚ)
  vitals_stats : Option (Vital → VitalStats)

/-- The record query of `get_patient_summary` (lines 96-99): exact
match on the patient id. -/
def patientRecords (st : PipelineState) (pid : String) : List VitalRecord :=
  st.vitals.filter (fun r => r.patient_id == pid)

/-- The statistics computed by `get_patient_summary` for one vital
(lines 104-110). -/
noncomputable def statsOf (df : List VitalRecord) (v : Vital) : VitalStats :=
  let xs := df.map (fun r => reading r v)
  { mean := round2 (listMean xs)
    min := round2 (listMin xs)
    max := round2 (listMax xs)
    std := if 1 < df.length then round2R (Real.sqrt (sampleVar xs)) else 0 }

/-- `HealthPipeline.get_patient_summary` (lines 95-116). -/
noncomputable def get_patient_summary (st : PipelineState) (pid : String) :
    PatientSummary :=
  let df := patientRecords st pid
  if df.isEmpty then
    { patient_id := pid, records := 0, time_range := none, vitals_stats := none }
  else
    { patient_id := pid
      records := df.length
      time_range := some (listMin (df.map (fun r => r.timestamp)),
                          listMax (df.map (fun r => r.timestamp)))
      vitals_stats := some (statsOf df) }

/-! ### Helper lemmas about the deviation scorer -/

/-- Every fixed range has a strictly positive span. -/
lemma span_pos (v : Vital) : (VITAL_RANGES v).1 < (VITAL_RANGES v).2 := by
  cases v <;> norm_num [VITAL_RANGES]

lemma score_nonneg (value low high : ℚ) : 0 ≤ score value low high :=
  le_trans (le_max_right _ 0) (le_max_right _ _)

lemma score_eq_zero_iff (value low high : ℚ) (h : low < high) :
    score value low high = 0 ↔ low ≤ value ∧ value ≤ high := by
  have hs : (0 : ℚ) < high - low := sub_pos.mpr h
  unfold score
  constructor
  · intro h0
    have ha : (low - value) / (high - low) ≤ 0 := h0 ▸ le_max_left _ _
    have hb : (value - high) / (high - low) ≤ 0 :=
      le_trans (le_trans (le_max_left _ 0) (le_max_right _ _)) (le_of_eq h0)
    rw [div_le_iff hs, zero_mul] at ha hb
    constructor <;> linarith
  · rintro ⟨h1, h2⟩
    have ha : (low - value) / (high - low) ≤ 0 := by
      rw [div_le_iff hs, zero_mul]; linarith
    have hb : (value - high) / (high - low) ≤ 0 := by
      rw [div_le_iff hs, zero_mul]; linarith
    rw [max_eq_right hb, max_eq_right ha]

lemma alertOfRecord_in_range (v : Vital) (r : VitalRecord)
    (h1 : (VITAL_RANGES v).1 ≤ reading r v)
    (h2 : reading r v ≤ (VITAL_RANGES v).2) :
    alertOfRecord v r = none := by
  have h0 : deviationOf v r = 0 :=
    (score_eq_zero_iff _ _ _ (span_pos v)).mpr ⟨h1, h2⟩
  unfold alertOfRecord
  rw [h0]
  simp

lemma score_above (value low high : ℚ) (h : low < high) (hx : high < value) :
    score value low high = (value - high) / (high - low) := by
  have hs : (0 : ℚ) < high - low := sub_pos.mpr h
  have hb : 0 < (value - high) / (high - low) := div_pos (by linarith) hs
  have ha : (low - value) / (high - low) < 0 :=
    div_neg_of_neg_of_pos (by linarith) hs
  unfold score
  rw [max_eq_left hb.le]
  exact max_eq_right (le_of_lt (lt_trans ha hb))

lemma score_below (value low high : ℚ) (h : low < high) (hx : value < low) :
    score value low high = (low - value) / (high - low) := by
  have hs : (0 : ℚ) < high - low := sub_pos.mpr h
  have ha : 0 < (low - value) / (high - low) := div_pos (by linarith) hs
  have hb : (value - high) / (high - low) < 0 :=
    div_neg_of_neg_of_pos (by linarith) hs
  unfold score
  rw [max_eq_right hb.le]
  exact max_eq_left ha.le

lemma severityOf_critical_iff (d : ℚ) : severityOf d = "critical" ↔ 1 / 2 < d := by
  unfold severityOf
  split_ifs with h
  · exact iff_of_true rfl h
  · exact iff_of_false (by decide) h

lemma severityOf_warning (d : ℚ) (h : ¬ 1 / 2 < d) : severityOf d = "warning" :=
  if_neg h

/-! ### Claims about the scorer -/

/-- C1: for every value and every range with positive span, the
deviation equals `max((low - value)/span, (value - high)/span, 0)`, it
is zero exactly when the value lies in the inclusive interval
`[low, high]`, and no alert is generated for an in-range reading. -/
theorem C1_deviation_formula (value low high : ℚ) (h : 0 < high - low) :
    score value low high
      = max ((low - value) / (high - low)) (max ((value - high) / (high - low)) 0)
    ∧ (score value low high = 0 ↔ low ≤ value ∧ value ≤ high)
    ∧ ∀ (v : Vital) (r : VitalRecord),
        (VITAL_RANGES v).1 ≤ reading r v → reading r v ≤ (VITAL_RANGES v).2 →
        alertOfRecord v r = none :=
  ⟨rfl, score_eq_zero_iff value low high (by linarith),
    fun v r h1 h2 => alertOfRecord_in_range v r h1 h2⟩

/-- Witness for C1 at value 70, range (60, 100). -/
theorem C1_deviation_formula_witness : score 70 60 100 = 0 :=
  (C1_deviation_formula 70 60 100 (by norm_num)).2.1.mpr (by norm_num)

/-- C2: the severity is a function of the deviation alone: zero
deviation yields no alert, a positive deviation at most 1/2 yields a
"warning" alert (so the boundary 1/2 is "warning"), and a deviation
above 1/2 yields a "critical" alert. -/
theorem C2_severity_classification (v : Vital) (r : VitalRecord) :
    (deviationOf v r = 0 → alertOfRecord v r = none)
    ∧ (0 < deviationOf v r → alertOfRecord v r = some (mkAlert v r)
        ∧ (mkAlert v r).severity = severityOf (deviationOf v r))
    ∧ (0 < deviationOf v r → deviationOf v r ≤ 1 / 2 →
        (mkAlert v r).severity = "warning")
    ∧ (1 / 2 < deviationOf v r → (mkAlert v r).severity = "critical")
    ∧ severityOf (1 / 2) = "warning" := by
  refine ⟨?_, ?_, ?_, ?_, ?_⟩
  · intro h0
    unfold alertOfRecord
    rw [h0]
    simp
  · intro hp
    constructor
    · unfold alertOfRecord
      rw [if_pos hp]
    · rfl
  · intro _ hle
    exact severityOf_warning _ (not_lt.mpr hle)
  · intro hc
    exact (severityOf_critical_iff _).mpr hc
  · exact severityOf_warning _ (by norm_num)

/-- An out-of-range example record: heart rate 110, all other vitals
normal. -/
def recHR110 : VitalRecord :=
  { patient_id := "P001", timestamp := 1, heart_rate := 110, bp_systolic := 120,
    bp_diastolic := 80, temperature := 36.8, spo2 := 98, resp_rate := 16 }

/-- Witness for C2: heart rate 110 has deviation 1/4 and yields a
"warning" alert. -/
theorem C2_severity_classification_witness :
    alertOfRecord .heart_rate recHR110 = some (mkAlert .heart_rate recHR110)
    ∧ (mkAlert .heart_rate recHR110).severity = "warning" := by
  have h := C2_severity_classification .heart_rate recHR110
  have hp : 0 < deviationOf .heart_rate recHR110 := by
    norm_num [deviationOf, score, reading, VITAL_RANGES, recHR110]
  exact ⟨(h.2.1 hp).1, h.2.2.1 hp (by
    norm_num [deviationOf, score, reading, VITAL_RANGES, recHR110])⟩

/-- C7: above the range the score is strictly increasing and equals
`(x - high)/span`, with severity "critical" exactly when that exceeds
1/2 and "warning" otherwise; symmetrically, below the range the score
equals `(low - x)/span` and strictly increases as `x` decreases. -/
theorem C7_strict_monotonicity (low high x1 x2 : ℚ) (h : low < high) :
    (high < x1 → x1 < x2 → score x1 low high < score x2 low high)
    ∧ (high < x1 →
        score x1 low high = (x1 - high) / (high - low)
        ∧ (severityOf (score x1 low high) = "critical"
            ↔ 1 / 2 < (x1 - high) / (high - low))
        ∧ (¬ 1 / 2 < (x1 - high) / (high - low) →
            severityOf (score x1 low high) = "warning"))
    ∧ (x1 < low → score x1 low high = (low - x1) / (high - low))
    ∧ (x2 < x1 → x1 < low → score x1 low high < score x2 low high) := by
  have hs : (0 : ℚ) < high - low := sub_pos.mpr h
  refine ⟨?_, ?_, ?_, ?_⟩
  · intro h1 h12
    rw [score_above x1 low high h h1, score_above x2 low high h (lt_trans h1 h12)]
    exact (div_lt_div_right hs).mpr (by linarith)
  · intro h1
    rw [score_above x1 low high h h1]
    exact ⟨rfl, severityOf_critical_iff _, fun hn => severityOf_warning _ hn⟩
  · intro h1
    exact score_below x1 low high h h1
  · intro h21 h1
    rw [score_below x1 low high h h1, score_below x2 low high h (lt_trans h21 h1)]
    exact (div_lt_div_right hs).mpr (by linarith)

/-- Witness for C7 at range (60, 100), values 110 and 120. -/
theorem C7_strict_monotonicity_witness :
    score 110 60 100 < score 120 60 100
    ∧ score 110 60 100 = (110 - 100) / (100 - 60) := by
  have h := C7_strict_monotonicity 60 100 110 120 (by norm_num)
  exact ⟨h.1 (by norm_num) (by norm_num), (h.2.1 (by norm_num)).1⟩

/-! ### Helper lemmas about the anomaly detector -/

/-- The alert batch returned by `detect_anomalies` is the vital-major,
record-minor scan of the (filtered) records; the early return on an
empty query result coincides with the scan of no records. -/
lemma detect_fst (st : PipelineState) (pid : Option String) :
    (detect_anomalies st pid).1
      = VITALS.flatMap
          (fun v => (filterRecords st.vitals pid).filterMap (alertOfRecord v)) := by
  simp only [detect_anomalies]
  split
  next hdf =>
    rw [List.isEmpty_iff] at hdf
    simp [hdf]
  next hdf =>
    split <;> rfl

/-- `detect_anomalies` never modifies the `vitals` table. -/
lemma detect_snd_vitals (st : PipelineState) (pid : Option String) :
    (detect_anomalies st pid).2.vitals = st.vitals := by
  simp only [detect_anomalies]
  split
  · rfl
  · split <;> rfl

/-- After `detect_anomalies`, the `alerts` table holds the old rows
followed by the returned batch (appending the empty batch is the
identity, so this also covers the no-write paths). -/
lemma detect_snd_alerts (st : PipelineState) (pid : Option String) :
    (detect_anomalies st pid).2.alerts = st.alerts ++ (detect_anomalies st pid).1 := by
  simp only [detect_anomalies]
  split
  next => simp
  next =>
    split
    next ha =>
      rw [List.isEmpty_iff] at ha
      simp [ha]
    next => rfl

/-! ### Claims about the detector's state handling -/

/-- C4: an empty (filtered) record set, or one whose records are all in
range on all six vitals, makes `detect_anomalies` return the empty
batch with the state unchanged (no alert-store write); in general the
post-state's alert table is the old table with the whole returned batch
appended in one write, and the vitals table is untouched. -/
theorem C4_empty_no_write (st : PipelineState) (pid : Option String) :
    (filterRecords st.vitals pid = [] → detect_anomalies st pid = ([], st))
    ∧ ((∀ r ∈ filterRecords st.vitals pid, ∀ v : Vital,
          (VITAL_RANGES v).1 ≤ reading r v ∧ reading r v ≤ (VITAL_RANGES v).2) →
        detect_anomalies st pid = ([], st))
    ∧ (detect_anomalies st pid).2.vitals = st.vitals
    ∧ (detect_anomalies st pid).2.alerts = st.alerts ++ (detect_anomalies st pid).1 := by
  refine ⟨?_, ?_, detect_snd_vitals st pid, detect_snd_alerts st pid⟩
  · intro h
    simp only [detect_anomalies]
    split
    next => rfl
    next hdf =>
      rw [List.isEmpty_iff] at hdf
      exact absurd h hdf
  · intro h
    have hnil : (VITALS.flatMap
        fun v => (filterRecords st.vitals pid).filterMap (alertOfRecord v)) = [] := by
      have hv : ∀ v : Vital,
          (filterRecords st.vitals pid).filterMap (alertOfRecord v) = [] := by
        intro v
        rw [List.filterMap_eq_nil]
        intro r hr
        exact alertOfRecord_in_range v r (h r hr v).1 (h r hr v).2
      simp [hv]
    simp only [detect_anomalies]
    split
    next => rfl
    next => simp [hnil]

/-- A fully in-range example record. -/
def recNormal : VitalRecord :=
  { patient_id := "P001", timestamp := 1, heart_rate := 75, bp_systolic := 120,
    bp_diastolic := 80, temperature := 36.8, spo2 := 98, resp_rate := 16 }

/-- Witness for C4: the empty store and a store holding one fully
in-range record both yield the empty batch and an unchanged state. -/
theorem C4_empty_no_write_witness :
    detect_anomalies ⟨[], []⟩ none = ([], ⟨[], []⟩)
    ∧ detect_anomalies ⟨[recNormal], []⟩ none = ([], ⟨[recNormal], []⟩) :=
  ⟨(C4_empty_no_write ⟨[], []⟩ none).1 rfl,
   (C4_empty_no_write ⟨[recNormal], []⟩ none).2.1 (by
     intro r hr v
     have hr' : r = recNormal := by simpa [filterRecords] using hr
     subst hr'
     cases v <;> exact ⟨by norm_num [VITAL_RANGES, reading, recNormal],
                       by norm_num [VITAL_RANGES, reading, recNormal]⟩)⟩

/-- C5: a patient with zero stored records gets the sentinel summary:
the patient id, a record count of 0, and neither a time range nor a
statistics block. -/
theorem C5_empty_patient_summary (st : PipelineState) (pid : String)
    (h : patientRecords st pid = []) :
    (get_patient_summary st pid).patient_id = pid
    ∧ (get_patient_summary st pid).records = 0
    ∧ (get_patient_summary st pid).time_range = none
    ∧ (get_patient_summary st pid).vitals_stats = none := by
  refine ⟨?_, ?_, ?_, ?_⟩ <;> simp [get_patient_summary, h]

/-- Witness for C5: an unknown patient id on the empty store. -/
theorem C5_empty_patient_summary_witness :
    (get_patient_summary ⟨[], []⟩ "PXXX").records = 0
    ∧ (get_patient_summary ⟨[], []⟩ "PXXX").vitals_stats = none :=
  ⟨(C5_empty_patient_summary ⟨[], []⟩ "PXXX" rfl).2.1,
   (C5_empty_patient_summary ⟨[], []⟩ "PXXX" rfl).2.2.2⟩

/-- C8: running `detect_anomalies` twice on an unchanged record store
returns two structurally identical batches; the alert table afterwards
holds both batches, undeduplicated, and the vitals table is unchanged. -/
theorem C8_detect_idempotent_batches (st : PipelineState) (pid : Option String) :
    (detect_anomalies (detect_anomalies st pid).2 pid).1 = (detect_anomalies st pid).1
    ∧ (detect_anomalies (detect_anomalies st pid).2 pid).2.alerts
        = st.alerts ++ (detect_anomalies st pid).1 ++ (detect_anomalies st pid).1
    ∧ (detect_anomalies (detect_anomalies st pid).2 pid).2.vitals = st.vitals := by
  have h1 : (detect_anomalies (detect_anomalies st pid).2 pid).1
      = (detect_anomalies st pid).1 := by
    rw [detect_fst, detect_fst, detect_snd_vitals]
  refine ⟨h1, ?_, by rw [detect_snd_vitals, detect_snd_vitals]⟩
  rw [detect_snd_alerts, h1, detect_snd_alerts, List.append_assoc]

/-- C10: the empty string as patient filter is falsy in the source's
`if patient_id:` test, so it scans every patient's records exactly as
the no-filter call does; a non-empty filter restricts to records whose
patient id matches exactly. -/
theorem C10_empty_string_filter (st : PipelineState) (recs : List VitalRecord)
    (p : String) :
    filterRecords recs (some "") = recs
    ∧ detect_anomalies st (some "") = detect_anomalies st none
    ∧ (p ≠ "" → filterRecords recs (some p)
        = recs.filter (fun r => r.patient_id == p)) := by
  refine ⟨rfl, ?_, fun hp => ?_⟩
  · have h : filterRecords st.vitals (some "") = filterRecords st.vitals none := rfl
    unfold detect_anomalies
    rw [h]
  · simp only [filterRecords]
    rw [if_neg hp]

/-- Witness for C10: a record of patient "P001" is scanned under the
empty-string filter but dropped under the filter "P002". -/
theorem C10_empty_string_filter_witness :
    filterRecords [recHR110] (some "") = [recHR110]
    ∧ filterRecords [recHR110] (some "P002")
        = List.filter (fun r => r.patient_id == "P002") [recHR110] :=
  ⟨(C10_empty_string_filter ⟨[], []⟩ [recHR110] "P002").1,
   (C10_empty_string_filter ⟨[], []⟩ [recHR110] "P002").2.2 (by decide)⟩

/-! ### Helper lemmas about the per-vital alert blocks -/

/-- Every alert in the block scanned for vital `v` carries that vital's
name. -/
lemma vital_of_mem_block (v : Vital) (recs : List VitalRecord) :
    ∀ a ∈ recs.filterMap (alertOfRecord v), a.vital = vitalName v := by
  intro a ha
  rw [List.mem_filterMap] at ha
  obtain ⟨r, _, hr⟩ := ha
  unfold alertOfRecord at hr
  split_ifs at hr with h
  rw [← Option.some.inj hr]
  rfl

/-- Membership in the block scanned for vital `v`: exactly the alerts
of the records whose reading breaches the range. -/
lemma mem_block_iff (v : Vital) (recs : List VitalRecord) (a : Alert) :
    a ∈ recs.filterMap (alertOfRecord v)
      ↔ ∃ r ∈ recs, 0 < deviationOf v r ∧ a = mkAlert v r := by
  rw [List.mem_filterMap]
  constructor
  · rintro ⟨r, hrmem, hr⟩
    unfold alertOfRecord at hr
    split_ifs at hr with h
    exact ⟨r, hrmem, h, (Option.some.inj hr).symm⟩
  · rintro ⟨r, hrmem, hdev, rfl⟩
    refine ⟨r, hrmem, ?_⟩
    unfold alertOfRecord
    rw [if_pos hdev]

/-- A block holds exactly one alert per breaching record. -/
lemma block_length (v : Vital) (recs : List VitalRecord) :
    (recs.filterMap (alertOfRecord v)).length
      = (recs.filter (fun r => decide (0 < deviationOf v r))).length := by
  induction recs with
  | nil => rfl
  | cons r t ih =>
    by_cases h : 0 < deviationOf v r
    · have ha : alertOfRecord v r = some (mkAlert v r) := if_pos h
      simp [List.filterMap_cons, List.filter_cons, ha, h, ih]
    · have ha : alertOfRecord v r = none := if_neg h
      simp [List.filterMap_cons, List.filter_cons, ha, h, ih]

/-- Every vital is scanned. -/
lemma mem_VITALS (v : Vital) : v ∈ VITALS := by
  cases v <;> simp [VITALS]

/-- The position of a vital name in the fixed iteration order. -/
def vitalIdx (s : String) : ℕ := (VITALS.map vitalName).indexOf s

lemma vitalName_injective (u v : Vital) (h : vitalName u = vitalName v) : u = v := by
  revert h
  cases u <;> cases v <;> decide

lemma filter_block_self (recs : List VitalRecord) (v : Vital) :
    (recs.filterMap (alertOfRecord v)).filter (fun a => a.vital == vitalName v)
      = recs.filterMap (alertOfRecord v) := by
  rw [List.filter_eq_self]
  intro a ha
  simp [vital_of_mem_block v recs a ha]

lemma filter_block_ne (recs : List VitalRecord) (u v : Vital) (h : u ≠ v) :
    (recs.filterMap (alertOfRecord u)).filter (fun a => a.vital == vitalName v)
      = [] := by
  rw [List.filter_eq_nil_iff]
  intro a ha
  rw [vital_of_mem_block u recs a ha]
  simp only [beq_iff_eq]
  exact fun heq => h (vitalName_injective u v heq)

lemma filter_flatMap_nil (recs : List VitalRecord) (v : Vital) (t : List Vital)
    (hv : v ∉ t) :
    ((t.flatMap fun u => recs.filterMap (alertOfRecord u)).filter
        (fun a => a.vital == vitalName v)) = [] := by
  induction t with
  | nil => rfl
  | cons u s ih =>
    rw [List.flatMap_cons, List.filter_append,
      filter_block_ne recs u v (fun h => hv (h ▸ List.mem_cons_self u s)),
      ih (fun h => hv (List.mem_cons_of_mem u h))]
    rfl

/-- Filtering the whole scan by one vital's name recovers exactly that
vital's block. -/
lemma filter_flatMap_block (recs : List VitalRecord) (v : Vital) (t : List Vital)
    (hnd : t.Nodup) (hv : v ∈ t) :
    ((t.flatMap fun u => recs.filterMap (alertOfRecord u)).filter
        (fun a => a.vital == vitalName v)) = recs.filterMap (alertOfRecord v) := by
  induction t with
  | nil => cases hv
  | cons u s ih =>
    rw [List.flatMap_cons, List.filter_append]
    rcases List.mem_cons.mp hv with rfl | hvs
    · rw [filter_block_self, filter_flatMap_nil recs v s (List.nodup_cons.mp hnd).1]
      simp
    · have hune : u ≠ v := fun h => (List.nodup_cons.mp hnd).1 (h ▸ hvs)
      rw [filter_block_ne recs u v hune, ih (List.nodup_cons.mp hnd).2 hvs]
      simp

/-- The scan emits its alerts in blocks of non-decreasing vital index. -/
lemma pairwise_vitalIdx (recs : List VitalRecord) (t : List Vital)
    (ht : t.Pairwise (fun u w => vitalIdx (vitalName u) ≤ vitalIdx (vitalName w))) :
    ((t.flatMap fun u => recs.filterMap (alertOfRecord u))).Pairwise
      (fun a b => vitalIdx a.vital ≤ vitalIdx b.vital) := by
  induction t with
  | nil => exact List.Pairwise.nil
  | cons u s ih =>
    rw [List.flatMap_cons, List.pairwise_append]
    obtain ⟨hrel, hs⟩ := List.pairwise_cons.mp ht
    refine ⟨?_, ih hs, ?_⟩
    · apply List.pairwise_of_forall_mem_list
      intro a ha b hb
      rw [vital_of_mem_block u recs a ha, vital_of_mem_block u recs b hb]
    · intro a ha b hb
      rw [vital_of_mem_block u recs a ha]
      obtain ⟨w, hw, hbw⟩ := List.mem_flatMap.mp hb
      rw [vital_of_mem_block w recs b hbw]
      exact hrel w hw

/-! ### Claims about the alert batch -/

/-- C6: every alert of a `detect_anomalies` batch is well-formed: its
vital is one of the six tracked names; its severity is "warning" or
"critical" and is the severity of its deviation; its value is the
offending reading rounded to 2 decimals; patient id and timestamp are
copied from the triggering record; its message is
`"<vital>=<value to 1 decimal> outside [<low>,<high>]"`; each breaching
(record, vital) pair contributes exactly one alert, so a store with a
single record yields at most six alerts. -/
theorem C6_alert_wellformed (st : PipelineState) (pid : Option String) :
    (∀ a ∈ (detect_anomalies st pid).1,
        a.vital ∈ VITALS.map vitalName
        ∧ (a.severity = "warning" ∨ a.severity = "critical")
        ∧ ∃ v : Vital, ∃ r ∈ filterRecords st.vitals pid,
            0 < deviationOf v r
            ∧ a.vital = vitalName v
            ∧ a.value = round2 (reading r v)
            ∧ a.patient_id = r.patient_id
            ∧ a.timestamp = r.timestamp
            ∧ a.severity = severityOf (deviationOf v r)
            ∧ a.message = vitalName v ++ "=" ++ fmt1 (reading r v) ++ " outside ["
                ++ boundStr (VITAL_RANGES v).1 ++ ","
                ++ boundStr (VITAL_RANGES v).2 ++ "]")
    ∧ (∀ (v : Vital) (r : VitalRecord), r ∈ filterRecords st.vitals pid →
        0 < deviationOf v r → mkAlert v r ∈ (detect_anomalies st pid).1)
    ∧ (∀ v : Vital,
        ((filterRecords st.vitals pid).filterMap (alertOfRecord v)).length
          = ((filterRecords st.vitals pid).filter
              (fun r => decide (0 < deviationOf v r))).length)
    ∧ (∀ r : VitalRecord, st.vitals = [r] →
        (detect_anomalies st pid).1.length ≤ 6) := by
  refine ⟨?_, ?_, fun v => block_length v _, ?_⟩
  · intro a ha
    rw [detect_fst, List.mem_flatMap] at ha
    obtain ⟨v, hv, hblock⟩ := ha
    obtain ⟨r, hrmem, hdev, rfl⟩ := (mem_block_iff v _ a).mp hblock
    refine ⟨List.mem_map_of_mem vitalName hv, ?_,
      v, r, hrmem, hdev, rfl, rfl, rfl, rfl, rfl, rfl⟩
    have hsev : (mkAlert v r).severity = severityOf (deviationOf v r) := rfl
    rw [hsev]
    unfold severityOf
    split_ifs
    · right
      rfl
    · left
      rfl
  · intro v r hrmem hdev
    rw [detect_fst, List.mem_flatMap]
    exact ⟨v, mem_VITALS v, (mem_block_iff v _ _).mpr ⟨r, hrmem, hdev, rfl⟩⟩
  · intro r hr
    rw [detect_fst]
    have hone : ∀ v : Vital,
        ((filterRecords st.vitals pid).filterMap (alertOfRecord v)).length ≤ 1 := by
      intro v
      have hsub : filterRecords st.vitals pid = [r] ∨ filterRecords st.vitals pid = [] := by
        rw [hr]
        cases pid with
        | none => exact Or.inl rfl
        | some p =>
          by_cases hp : p = ""
          · exact Or.inl (by simp [filterRecords, hp])
          · by_cases hb : r.patient_id == p
            · exact Or.inl (by simp [filterRecords, hp, hb])
            · exact Or.inr (by simp [filterRecords, hp, hb])
      rcases hsub with h | h <;> rw [h]
      · cases halert : alertOfRecord v r <;> simp [List.filterMap, halert]
      · simp
    rw [List.length_flatMap]
    have h0 := hone .heart_rate
    have h1 := hone .bp_systolic
    have h2 := hone .bp_diastolic
    have h3 := hone .temperature
    have h4 := hone .spo2
    have h5 := hone .resp_rate
    simp only [VITALS, List.map_cons, List.map_nil, List.sum_cons, List.sum_nil,
      Function.comp]
    omega

/-- Witness for C6: heart rate 110 contributes its alert to the batch. -/
theorem C6_alert_wellformed_witness :
    mkAlert .heart_rate recHR110 ∈ (detect_anomalies ⟨[recHR110], []⟩ none).1 :=
  (C6_alert_wellformed ⟨[recHR110], []⟩ none).2.1 .heart_rate recHR110
    (by simp [filterRecords])
    (by norm_num [deviationOf, score, reading, VITAL_RANGES, recHR110])

/-- C9: the alert batch is the vital-major, record-minor scan over the
fixed vital order heart_rate, bp_systolic, bp_diastolic, temperature,
spo2, resp_rate; alert vital indices are non-decreasing along the
batch, and the sub-sequence of one vital's alerts is exactly that
vital's record-ordered block.  Both are deterministic functions of the
stored records. -/
theorem C9_vital_major_order (st : PipelineState) (pid : Option String) :
    (detect_anomalies st pid).1
      = VITALS.flatMap
          (fun v => (filterRecords st.vitals pid).filterMap (alertOfRecord v))
    ∧ VITALS = [.heart_rate, .bp_systolic, .bp_diastolic, .temperature, .spo2,
        .resp_rate]
    ∧ ((detect_anomalies st pid).1).Pairwise
        (fun a b => vitalIdx a.vital ≤ vitalIdx b.vital)
    ∧ ∀ v : Vital,
        ((detect_anomalies st pid).1).filter (fun a => a.vital == vitalName v)
          = (filterRecords st.vitals pid).filterMap (alertOfRecord v) := by
  refine ⟨detect_fst st pid, rfl, ?_, ?_⟩
  · rw [detect_fst]
    exact pairwise_vitalIdx _ VITALS (by decide)
  · intro v
    rw [detect_fst]
    exact filter_flatMap_block _ v VITALS (by decide) (mem_VITALS v)

/-! ### The summary aggregator -/

/-- Rounding an integer changes nothing. -/
lemma rhe_intCast (n : ℤ) : rhe (n : ℚ) = n := by
  unfold rhe
  rw [Int.floor_intCast, if_pos]
  rw [sub_self]
  norm_num

/-- `round(sqrt(50), 2) = 7.07`: the sample standard deviation of the
readings 70 and 80. -/
lemma round2R_sqrt_fifty : round2R (Real.sqrt 50) = 707 / 100 := by
  have h1 : (707 : ℝ) / 100 ≤ Real.sqrt 50 :=
    (Real.le_sqrt' (by norm_num)).mpr (by norm_num)
  have h2 : Real.sqrt 50 < 283 / 40 :=
    (Real.sqrt_lt' (by norm_num)).mpr (by norm_num)
  have hfl : ⌊Real.sqrt 50 * 100⌋ = 707 := by
    rw [Int.floor_eq_iff]
    constructor
    · push_cast
      linarith
    · push_cast
      linarith
  have hcond : Real.sqrt 50 * 100 - ((707 : ℤ) : ℝ) < 1 / 2 := by
    push_cast
    linarith
  unfold round2R rheR
  rw [hfl, if_pos hcond]
  norm_num

/-- C3: for a patient with at least one record, the summary reports the
record count, the unrounded `[min timestamp, max timestamp]` range, and
per-vital mean/min/max rounded to 2 decimals with the sample standard
deviation rounded to 2 decimals (0.0 for a single record); heart-rate
readings `[70, 80]` give mean 75.0, min 70, max 80, std 7.07. -/
theorem C3_patient_summary (st : PipelineState) (pid : String)
    (h : patientRecords st pid ≠ []) :
    (get_patient_summary st pid).records = (patientRecords st pid).length
    ∧ (get_patient_summary st pid).time_range
        = some (listMin ((patientRecords st pid).map (fun r => r.timestamp)),
                listMax ((patientRecords st pid).map (fun r => r.timestamp)))
    ∧ (get_patient_summary st pid).vitals_stats = some (statsOf (patientRecords st pid))
    ∧ (∀ v : Vital,
        (statsOf (patientRecords st pid) v).mean
          = round2 (listMean ((patientRecords st pid).map (fun r => reading r v)))
        ∧ (statsOf (patientRecords st pid) v).min
          = round2 (listMin ((patientRecords st pid).map (fun r => reading r v)))
        ∧ (statsOf (patientRecords st pid) v).max
          = round2 (listMax ((patientRecords st pid).map (fun r => reading r v))))
    ∧ ((patientRecords st pid).length = 1 →
        ∀ v : Vital, (statsOf (patientRecords st pid) v).std = 0)
    ∧ (1 < (patientRecords st pid).length →
        ∀ v : Vital, (statsOf (patientRecords st pid) v).std
          = round2R (Real.sqrt
              (sampleVar ((patientRecords st pid).map (fun r => reading r v)))))
    ∧ ((patientRecords st pid).map (fun r => reading r .heart_rate) = [70, 80] →
        (statsOf (patientRecords st pid) .heart_rate).mean = 75
        ∧ (statsOf (patientRecords st pid) .heart_rate).min = 70
        ∧ (statsOf (patientRecords st pid) .heart_rate).max = 80
        ∧ (statsOf (patientRecords st pid) .heart_rate).std = 707 / 100) := by
  have hc : ¬((patientRecords st pid).isEmpty = true) := fun hemp =>
    h (List.isEmpty_iff.mp hemp)
  refine ⟨?_, ?_, ?_, ?_, ?_, ?_, ?_⟩
  · simp only [get_patient_summary]
    rw [if_neg hc]
  · simp only [get_patient_summary]
    rw [if_neg hc]
  · simp only [get_patient_summary]
    rw [if_neg hc]
  · intro v
    exact ⟨rfl, rfl, rfl⟩
  · intro h1 v
    simp [statsOf, h1]
  · intro hlen v
    simp [statsOf, hlen]
  · intro hmap
    have hlen : 1 < (patientRecords st pid).length := by
      have hl := congrArg List.length hmap
      rw [List.length_map] at hl
      simp at hl
      omega
    have hmean : listMean [70, 80] = 75 := by norm_num [listMean]
    have hvar : sampleVar [70, 80] = 50 := by
      unfold sampleVar
      rw [hmean]
      norm_num
    refine ⟨?_, ?_, ?_, ?_⟩
    · show round2 (listMean ((patientRecords st pid).map
          fun r => reading r Vital.heart_rate)) = 75
      rw [hmap, hmean]
      unfold round2
      rw [show (75 : ℚ) * 100 = ((7500 : ℤ) : ℚ) from by norm_num, rhe_intCast]
      norm_num
    · show round2 (listMin ((patientRecords st pid).map
          fun r => reading r Vital.heart_rate)) = 70
      rw [hmap, show listMin [70, 80] = 70 from by norm_num [listMin, min_def]]
      unfold round2
      rw [show (70 : ℚ) * 100 = ((7000 : ℤ) : ℚ) from by norm_num, rhe_intCast]
      norm_num
    · show round2 (listMax ((patientRecords st pid).map
          fun r => reading r Vital.heart_rate)) = 80
      rw [hmap, show listMax [70, 80] = 80 from by norm_num [listMax, max_def]]
      unfold round2
      rw [show (80 : ℚ) * 100 = ((8000 : ℤ) : ℚ) from by norm_num, rhe_intCast]
      norm_num
    · show (if 1 < (patientRecords st pid).length then
          round2R (Real.sqrt (sampleVar ((patientRecords st pid).map
            fun r => reading r Vital.heart_rate))) else 0) = 707 / 100
      rw [if_pos hlen, hmap, hvar]
      rw [show ((50 : ℚ) : ℝ) = 50 from by norm_num]
      exact round2R_sqrt_fifty

/-- A patient with heart rates 70 and 80, all other vitals constant and
normal. -/
def recHR70 : VitalRecord :=
  { patient_id := "P001", timestamp := 1, heart_rate := 70, bp_systolic := 120,
    bp_diastolic := 80, temperature := 36.8, spo2 := 98, resp_rate := 16 }

/-- Second record of the same patient, heart rate 80. -/
def recHR80 : VitalRecord :=
  { patient_id := "P001", timestamp := 2, heart_rate := 80, bp_systolic := 120,
    bp_diastolic := 80, temperature := 36.8, spo2 := 98, resp_rate := 16 }

/-- A store holding exactly the two heart-rate example records. -/
def twoRecordStore : PipelineState := ⟨[recHR70, recHR80], []⟩

/-- Witness for C3: the two-record patient has 2 records, heart-rate
mean 75 and std 7.07. -/
theorem C3_patient_summary_witness :
    (get_patient_summary twoRecordStore "P001").records = 2
    ∧ (statsOf (patientRecords twoRecordStore "P001") .heart_rate).mean = 75
    ∧ (statsOf (patientRecords twoRecordStore "P001") .heart_rate).std = 707 / 100 := by
  have h := C3_patient_summary twoRecordStore "P001" (by decide)
  have hmap : (patientRecords twoRecordStore "P001").map
      (fun r => reading r .heart_rate) = [70, 80] := by decide
  obtain ⟨hm, _, _, hstd⟩ := h.2.2.2.2.2.2 hmap
  exact ⟨h.1.trans (by decide), hm, hstd⟩
